import Mathlib

/-!
Shallow embedding of `src/main.py` (microC_PCA): the functions `prep`,
`load_microC`, `pca_calculation`, `pca_drawing`, together with models of the
pandas / sklearn library behaviour those functions call into
(`pd.read_csv`, column assignment, `astype(str)`, element-wise string
concatenation of series, `merge`, `fillna`, `set_index`, `StandardScaler`,
`PCA`).  Machine floats never undergo arithmetic in the modelled fragment:
cells only carry parsed numeric payloads, so a float cell is represented
exactly as the pair (mantissa, decimal exponent) read from the text.  The
numeric output of `StandardScaler.fit_transform` and `PCA.fit_transform`
(floating-point SVD) is represented symbolically by the `Arr` term algebra:
the claims under study concern shapes, labels, control flow and error
behaviour, never the float entries themselves.
-/

namespace MicroC

/-- Decimal digit characters of `n`, least significant first, using `fuel`
for structural termination (`fuel = n` always suffices). -/
def natDigitsAux : Nat → Nat → List Char
  | 0, _ => []
  | _, 0 => []
  | fuel + 1, n + 1 => Nat.digitChar ((n + 1) % 10) :: natDigitsAux fuel ((n + 1) / 10)

/-- Decimal rendering of a natural number, as produced by Python `str` on a
non-negative integer. -/
def natStr (n : Nat) : String := if n = 0 then "0" else ⟨(natDigitsAux n n).reverse⟩

/-- Decimal rendering of an integer, as produced by Python `str`. -/
def intStr : Int → String
  | Int.ofNat n => natStr n
  | Int.negSucc n => "-" ++ natStr (n + 1)

/-- One cell of a pandas dataframe in this pipeline: an int64 entry, a
float64 entry carried exactly as (mantissa, decimal exponent) i.e. the value
m / 10^e, an object (string) entry, or NaN. -/
inductive Cell
  | i (n : Int)
  | f (m : Int) (e : Nat)
  | s (str : String)
  | nan
deriving DecidableEq

/-- Left-pad a string with `'0'` to length `k` (for rendering fractional
parts of floats). -/
def padZeros (str : String) (k : Nat) : String :=
  ⟨List.replicate (k - str.data.length) '0'⟩ ++ str

/-- Python `str` of a float64 value m / 10^e: the shortest decimal form, so
fractional trailing zeros are dropped (`str(3.10)` is `"3.1"`, `str(3.0)`
is `"3.0"`).  This renders the decimal payload in Python's plain regime;
the exponent regime (|x| ≥ 1e16 or < 1e-4) and binary-float round-off are
outside the model — no theorem in this development evaluates this
rendering (the pipeline only ever applies `astype(str)` to int64, object
and NaN cells on the inputs under study). -/
def floatStr (m : Int) (e : Nat) : String :=
  let sign := if m < 0 then "-" else ""
  let a := m.natAbs
  if e = 0 then sign ++ natStr a ++ ".0"
  else
    let frac := ((padZeros (natStr (a % 10 ^ e)) e).data.reverse.dropWhile
      (fun c => c = '0')).reverse
    sign ++ natStr (a / 10 ^ e) ++ "." ++ (if frac.isEmpty then "0" else (⟨frac⟩ : String))

/-- The string pandas `astype(str)` produces for a cell: `str` of the int,
`str` of the float, the object itself for strings, and `"nan"` for NaN. -/
def pyStr : Cell → String
  | Cell.i n => intStr n
  | Cell.f m e => floatStr m e
  | Cell.s str => str
  | Cell.nan => "nan"

/-- A pandas DataFrame as used by this script: row index labels, column
names, and the grid of cells (row-major). -/
structure Frame where
  idx : List String
  cols : List String
  rows : List (List Cell)
deriving DecidableEq

/-- The Python exceptions this pipeline can raise (pandas `ParserError` and
`EmptyDataError` are the parse-level errors; `TypeError`, `KeyError` and
`ValueError` arise from calls and pandas/sklearn checks). -/
inductive PyErr
  | typeError
  | keyError
  | valueError
  | parserError
  | emptyDataError
deriving DecidableEq

/-- Split a line at tab characters (the pandas tokenizer for `sep='\t'`),
accumulator holds the current field reversed. -/
def splitTabAux : List Char → List Char → List String
  | [], acc => [⟨acc.reverse⟩]
  | c :: cs, acc =>
    if c = '\t' then ⟨acc.reverse⟩ :: splitTabAux cs []
    else splitTabAux cs (c :: acc)

/-- Fields of one tab-separated line. -/
def splitTab (line : String) : List String := splitTabAux line.data []

/-- Whether a character list is a non-empty run of decimal digits. -/
def digitsOnly (cs : List Char) : Bool := !cs.isEmpty && cs.all (fun c => c.isDigit)

/-- Whether a field is an integer token (optional sign, digits), i.e. parses
as int64 under pandas type inference. -/
def isIntStr (str : String) : Bool :=
  match str.data with
  | '-' :: ds => digitsOnly ds
  | ds => digitsOnly ds

/-- Value of a run of decimal digits. -/
def digitsVal (cs : List Char) : Nat := cs.foldl (fun a c => a * 10 + (c.toNat - 48)) 0

/-- Integer value of an integer token (callers guard with `isIntStr`). -/
def parseIntCell (str : String) : Int :=
  match str.data with
  | '-' :: ds => -(digitsVal ds : Int)
  | ds => (digitsVal ds : Int)

/-- Split a character list at the first `'.'`: integer part, and the
fractional part when a dot is present. -/
def splitDot : List Char → List Char × Option (List Char)
  | [] => ([], none)
  | c :: cs =>
    if c = '.' then ([], some cs)
    else
      let p := splitDot cs
      (c :: p.1, p.2)

/-- Whether a field is a float token `digits.digits` with optional sign
(the numeric-token fragment this data model uses; exponents are not needed
for these files). -/
def isFloatStr (str : String) : Bool :=
  let body := match str.data with
    | '-' :: ds => ds
    | ds => ds
  match splitDot body with
  | (ip, some fp) => digitsOnly ip && digitsOnly fp
  | (_, none) => false

/-- Parse a numeric token (int or float form) to a float cell (mantissa,
decimal exponent): callers guard with `isIntStr` or `isFloatStr`. -/
def parseFloatCell (str : String) : Cell :=
  let neg := match str.data with
    | '-' :: _ => true
    | _ => false
  let body : List Char := match str.data with
    | '-' :: ds => ds
    | ds => ds
  match splitDot body with
  | (ip, some fp) =>
    let m : Nat := digitsVal ip * 10 ^ fp.length + digitsVal fp
    Cell.f (if neg then -(m : Int) else (m : Int)) fp.length
  | (ip, none) => Cell.f (if neg then -(digitsVal ip : Int) else (digitsVal ip : Int)) 0

/-- pandas `read_csv` dtype inference for one column; `none` entries are
cells missing because the row was shorter than the header.  All-integer
columns with no missing entry become int64; integer columns with missing
entries are upcast to float64; otherwise all-numeric columns are float64;
anything else is an object column (missing entries stay NaN). -/
def inferColumn (entries : List (Option String)) : List Cell :=
  let present := entries.filterMap id
  if present.all isIntStr then
    if entries.all Option.isSome then
      entries.map (fun e => match e with
        | some str => Cell.i (parseIntCell str)
        | none => Cell.nan)
    else
      entries.map (fun e => match e with
        | some str => parseFloatCell str
        | none => Cell.nan)
  else if present.all (fun str => isIntStr str || isFloatStr str) then
    entries.map (fun e => match e with
      | some str => parseFloatCell str
      | none => Cell.nan)
  else
    entries.map (fun e => match e with
      | some str => Cell.s str
      | none => Cell.nan)

/-- The cells of column `j` of the padded row grid. -/
def colSlice (grid : List (List (Option String))) (j : Nat) : List (Option String) :=
  grid.map (fun r => r.getD j none)

/-- pandas mangling of duplicate column names (`mangle_dupe_cols`, the
default): the k-th repeat of a name becomes `name.k`.  `seen` holds the
names already emitted.  (pandas additionally re-mangles a mangled name that
collides with a further literal `name.k` column; that corner is outside
this model and outside every input considered here.) -/
def mangleAux (seen : List String) : List String → List String
  | [] => []
  | c :: cs =>
    (if seen.count c = 0 then c else c ++ "." ++ natStr (seen.count c)) :: mangleAux (c :: seen) cs

/-- Mangled header names, as pandas reports them for a duplicated header. -/
def mangleDup (names : List String) : List String := mangleAux [] names

/-- Join index labels of one row with a separator (rendering of a pandas
(Multi)Index entry as one label; nothing in this development reads these
labels). -/
def joinBar : List String → String
  | [] => ""
  | [x] => x
  | x :: xs => x ++ "|" ++ joinBar xs

/-- The field count pandas expects of every data row: the header's count,
except that a wider FIRST data row widens it (its extra leading fields
become the implied row index). -/
def establishedWidth (n : Nat) : List (List String) → Nat
  | [] => n
  | r :: _ => max n r.length

/-- `read_csv` on the file body once blank lines are gone and the header
line is split off.  `hdr` is the header line, `rest` the data lines.
Column names are the mangled header fields.  The expected width `w` is the
header's field count, widened by an over-long first data row (pandas'
implied-index behaviour: the extra leading fields of every row then form
the row index — several extras would form a MultiIndex, rendered here as
one joined label; pandas would also type-infer index values, which nothing
here reads, so they are kept as source text).  A data row wider than `w`
raises `ParserError` ("Expected w fields"); a narrower row is silently
padded with NaN.  Dtypes of the data columns are inferred per column; with
no implied index the index is the default RangeIndex. -/
def readCsvAux : List String → Except PyErr Frame
  | [] => Except.error PyErr.emptyDataError
  | hdr :: rest =>
    let names := mangleDup (splitTab hdr)
    let n := (splitTab hdr).length
    let rs := rest.map splitTab
    let w := establishedWidth n rs
    if rs.any (fun r => w < r.length) then Except.error PyErr.parserError
    else
      let lvls := w - n
      let padded : List (List (Option String)) :=
        rs.map (fun r => r.map some ++ List.replicate (w - r.length) none)
      let dataPart := padded.map (fun r => r.drop lvls)
      let idx := if lvls = 0 then (List.range rs.length).map natStr
        else padded.map (fun r => joinBar ((r.take lvls).map (fun o => o.getD "nan")))
      let colsData := (List.range n).map (fun j => inferColumn (colSlice dataPart j))
      let rows := (List.range rs.length).map (fun i => colsData.map (fun c => c.getD i Cell.nan))
      Except.ok ⟨idx, names, rows⟩

/-- Model of `pd.read_csv(path, sep='\t')` (line 108 of `main.py`) on the
file's lines, with the pandas defaults: `skip_blank_lines=True` drops
fully blank lines everywhere (so a file of blank lines raises
`EmptyDataError`), `header=0` consumes the first remaining line as the
header, duplicate header names are mangled, and the data lines are parsed
by `readCsvAux` above. -/
def read_csv (lines : List String) : Except PyErr Frame :=
  readCsvAux (lines.filter (fun l => !l.data.isEmpty))

/-- Position of column `c` in the frame, when present. -/
def colIdx (df : Frame) (c : String) : Option Nat := df.cols.findIdx? (fun x => x = c)

/-- Model of `df[c]` for a single column: the column's cells, or `KeyError`
when no such column exists. -/
def getCol (df : Frame) (c : String) : Except PyErr (List Cell) :=
  match colIdx df c with
  | some j => Except.ok (df.rows.map (fun r => r.getD j Cell.nan))
  | none => Except.error PyErr.keyError

/-- Model of the assignment `df[c] = vals`: replace the column in place when
it exists, otherwise append a new column on the right (pandas semantics). -/
def setCol (df : Frame) (c : String) (vals : List Cell) : Frame :=
  match colIdx df c with
  | some j => ⟨df.idx, df.cols, (df.rows.zip vals).map (fun p => p.1.set j p.2)⟩
  | none => ⟨df.idx, df.cols ++ [c], (df.rows.zip vals).map (fun p => p.1 ++ [p.2])⟩

/-- Model of `df[c] = df[c].astype(str)` (lines 22-25 of `main.py`). -/
def astypeStrCol (df : Frame) (c : String) : Except PyErr Frame := do
  let col ← getCol df c
  Except.ok (setCol df c (col.map (fun x => Cell.s (pyStr x))))

/-- Element-wise `+` on two object cells: string concatenation when both are
strings, `TypeError` otherwise (pandas raises for int/NaN + str). -/
def cellConcat (a b : Cell) : Except PyErr Cell :=
  match a, b with
  | Cell.s x, Cell.s y => Except.ok (Cell.s (x ++ y))
  | _, _ => Except.error PyErr.typeError

/-- Element-wise `series + literal` on an object column. -/
def seriesConcatLit (col : List Cell) (lit : String) : Except PyErr (List Cell) :=
  col.mapM (fun x => cellConcat x (Cell.s lit))

/-- Element-wise `series + series`. -/
def seriesConcat (a b : List Cell) : Except PyErr (List Cell) :=
  (a.zip b).mapM (fun p => cellConcat p.1 p.2)

/-- The seven column names assigned on line 19 of `main.py`. -/
def fixedCols : List String := ["chr1", "start1", "end1", "chr2", "start2", "end2", "value"]

/-- The tile expression of line 28 of `main.py`:
`df['chr1'] + ':' + df['start1'] + '-' + df['end1'] + ';' + df['chr2'] + ':' + df['start2'] + '-' + df['end2']`
evaluated left to right, exactly as Python does. -/
def tileSeries (df : Frame) : Except PyErr (List Cell) := do
  let c1 ← getCol df "chr1"
  let s1 ← getCol df "start1"
  let e1 ← getCol df "end1"
  let c2 ← getCol df "chr2"
  let s2 ← getCol df "start2"
  let e2 ← getCol df "end2"
  let t1 ← seriesConcatLit c1 ":"
  let t2 ← seriesConcat t1 s1
  let t3 ← seriesConcatLit t2 "-"
  let t4 ← seriesConcat t3 e1
  let t5 ← seriesConcatLit t4 ";"
  let t6 ← seriesConcat t5 c2
  let t7 ← seriesConcatLit t6 ":"
  let t8 ← seriesConcat t7 s2
  let t9 ← seriesConcatLit t8 "-"
  seriesConcat t9 e2

/-- Embedding of `prep(df, df_name)` (lines 7-36 of `main.py`).  The Python
function mutates `df` (column renaming, `astype(str)` on the four start/end
columns, the added `tile` column) and returns a fresh two-column frame; the
embedding passes the mutation explicitly and returns the pair
(returned frame `new_df`, post-state of the argument `df`).  Line 19's
`df.columns = [...]` raises `ValueError` when `df` does not have exactly 7
columns; line 28's string concatenation raises `TypeError` when a
chromosome cell is not an object (string) entry. -/
def prep (df : Frame) (dfName : String) : Except PyErr (Frame × Frame) := do
  if df.cols.length = 7 then
    let df2 ← astypeStrCol ⟨df.idx, fixedCols, df.rows⟩ "start1"
    let df3 ← astypeStrCol df2 "end1"
    let df4 ← astypeStrCol df3 "start2"
    let df5 ← astypeStrCol df4 "end2"
    let tile ← tileSeries df5
    let df6 := setCol df5 "tile" tile
    let tcol ← getCol df6 "tile"
    let vcol ← getCol df6 "value"
    let newDf : Frame := ⟨df6.idx, ["location", dfName], (tcol.zip vcol).map (fun p => [p.1, p.2])⟩
    Except.ok (newDf, df6)
  else Except.error PyErr.valueError

/-- Python call semantics for `prep`: the parameter `df_name` has no
default, so a call that supplies only `df` — as `pca_calculation` does on
line 126 with `prep(temp)` — raises `TypeError` before the body runs. -/
def prepCall (df : Frame) : Option String → Except PyErr (Frame × Frame)
  | none => Except.error PyErr.typeError
  | some nm => prep df nm

/-- Embedding of `load_microC(filename)` (lines 98-110 of `main.py`): read
the file (whose lines are passed explicitly, since the embedding has no
filesystem) with `read_csv` and apply `prep`; the rebinding
`data = prep(data, filename)` keeps the returned frame and drops the
mutated argument. -/
def load_microC (filename : String) (contents : List String) : Except PyErr Frame := do
  let data ← read_csv contents
  let p ← prep data filename
  Except.ok p.1

/-- Rows of `right` whose key cell equals `k`. -/
def matchRows (right : Frame) (rj : Nat) (k : Cell) : List (List Cell) :=
  right.rows.filter (fun r => r.getD rj Cell.nan = k)

/-- A row of `right` with its key column removed. -/
def dropAt (r : List Cell) (j : Nat) : List Cell := r.eraseIdx j

/-- Model of `left.merge(right, on=c, how='outer')` (line 127 of
`main.py`): `KeyError` when either frame lacks the key column; otherwise a
full outer join — left rows in order, each paired with every matching right
row (NaN for the right columns when unmatched), followed by the unmatched
right rows (NaN for the left non-key columns); the result gets a fresh
RangeIndex.  Result columns are the left columns followed by the right
non-key columns. -/
def pdMerge (left right : Frame) (c : String) : Except PyErr Frame :=
  match colIdx left c, colIdx right c with
  | some lj, some rj =>
    let rcolsKept := right.cols.eraseIdx rj
    let cols := left.cols ++ rcolsKept
    let fromLeft : List (List Cell) :=
      (left.rows.map (fun lr =>
        let k := lr.getD lj Cell.nan
        match matchRows right rj k with
        | [] => [lr ++ List.replicate rcolsKept.length Cell.nan]
        | ms => ms.map (fun mr => lr ++ dropAt mr rj))).flatten
    let leftKeys := left.rows.map (fun lr => lr.getD lj Cell.nan)
    let fromRight : List (List Cell) :=
      (right.rows.filter (fun mr => !(leftKeys.contains (mr.getD rj Cell.nan)))).map
        (fun mr =>
          let base := List.replicate left.cols.length Cell.nan
          (base.set lj (mr.getD rj Cell.nan)) ++ dropAt mr rj)
    let rows := fromLeft ++ fromRight
    Except.ok ⟨(List.range rows.length).map natStr, cols, rows⟩
  | _, _ => Except.error PyErr.keyError

/-- Model of `.fillna(0)` (line 127): every NaN cell becomes the numeric 0
(0.0 in the float value columns an outer merge leaves behind). -/
def fillna0 (df : Frame) : Frame :=
  ⟨df.idx, df.cols, df.rows.map (fun r => r.map (fun x => if x = Cell.nan then Cell.f 0 0 else x))⟩

/-- Model of `df.set_index(c, inplace=True)` (line 128): `KeyError` when the
column is absent, otherwise the column's rendered values become the row
index and the column is removed from the grid. -/
def setIndex (df : Frame) (c : String) : Except PyErr Frame :=
  match colIdx df c with
  | some j =>
    Except.ok ⟨df.rows.map (fun r => pyStr (r.getD j Cell.nan)), df.cols.eraseIdx j,
      df.rows.map (fun r => r.eraseIdx j)⟩
  | none => Except.error PyErr.keyError

/-- Model of `df.T`: columns become the index and vice versa, the grid is
transposed. -/
def Frame.T (df : Frame) : Frame :=
  ⟨df.cols, df.idx, (List.range df.cols.length).map (fun j => df.rows.map (fun r => r.getD j Cell.nan))⟩

/-- Whether a cell is numeric (int64 or float64, NaN excluded): sklearn's
input validation accepts exactly these. -/
def numericCell : Cell → Bool
  | Cell.i _ => true
  | Cell.f _ _ => true
  | Cell.s _ => false
  | Cell.nan => false

/-- Symbolic numeric arrays: the floating-point outputs of
`StandardScaler.fit_transform` and `PCA` on a given input, whose exact
float entries are outside the scope of the embedding. -/
inductive Arr
  | scaled (x : Frame)
  | pcaScores (nc : Nat) (a : Arr)
  | pcaComps (nc : Nat) (a : Arr)
deriving DecidableEq

/-- The observable outcome of a successful `pca_drawing` call: the score
table (index, column labels, data) written to `{prefix}.csv`, the loadings
table written to `{prefix}_components.csv`, the files written in order,
and the Python return value. -/
structure PCAOut where
  scoresIdx : List String
  scoresCols : List String
  scores : Arr
  loadingsIdx : List String
  loadingsCols : List String
  loadings : Arr
  files : List String
  ret : Int
deriving DecidableEq

/-- Embedding of `pca_drawing(data, prefix, components)` (lines 39-95 of
`main.py`).  The third parameter has no default, so the two-argument call
on line 129 — modelled by passing `none` — raises `TypeError` at the call.
Inside the body the `components` argument is never used: line 56 constructs
`PCA(n_components=3)`.  `StandardScaler().fit_transform(data.T)` (line 53)
raises `ValueError` when the transposed matrix has no rows or no columns or
contains a non-numeric or NaN entry; `PCA(n_components=3).fit_transform`
(line 57) raises `ValueError` when 3 > min(n_samples, n_features).  On
success the score table is indexed by `data.columns` with columns
PC1/PC2/PC3 (line 60) and written to `{prefix}.csv` (line 61), the plot is
written to `{prefix}_pca_plots.png` (line 83), the loadings table is
indexed by `data.index` (line 86) and written to `{prefix}_components.csv`
(line 94), and the function returns 0 (line 95). -/
def pca_drawing (data : Frame) (pfx : String) : Option Nat → Except PyErr PCAOut
  | none => Except.error PyErr.typeError
  | some _ => do
    let tdata := data.T
    let nSamples := tdata.rows.length
    let nFeatures := tdata.cols.length
    if nSamples = 0 ∨ nFeatures = 0 then Except.error PyErr.valueError
    else if ¬ (tdata.rows.all (fun r => r.all numericCell)) then Except.error PyErr.valueError
    else
      let scaled := Arr.scaled tdata
      if ¬ (3 ≤ nSamples ∧ 3 ≤ nFeatures) then Except.error PyErr.valueError
      else
        Except.ok ⟨data.cols, ["PC1", "PC2", "PC3"], Arr.pcaScores 3 scaled,
          data.idx, ["PC1", "PC2", "PC3"], Arr.pcaComps 3 scaled,
          [pfx ++ ".csv", pfx ++ "_pca_plots.png", pfx ++ "_components.csv"], 0⟩

/-- The merge loop of `pca_calculation` (lines 123-127 of `main.py`): for
each sample, load it (line 125), call `prep(temp)` with a single argument
(line 126), outer-merge into the accumulator on `location` and fill NaN
with 0 (line 127). -/
def pca_calculationLoop (data : Frame) : List (String × List String) → Except PyErr Frame
  | [] => Except.ok data
  | (nm, contents) :: rest => do
    let temp ← load_microC nm contents
    let p ← prepCall temp none
    let merged ← pdMerge data p.1 "location"
    pca_calculationLoop (fillna0 merged) rest

/-- Embedding of `pca_calculation(*args, prefix="test")` (lines 112-130 of
`main.py`): the merge loop starting from `pd.DataFrame()` (line 123), then
`set_index('location')` (line 128), then the two-argument call
`pca_drawing(data, prefix)` (line 129); the Python function ends with
`return print(...)`, i.e. returns `None`, modelled as `Option.none` of an
output pair. -/
def pca_calculation (files : List (String × List String)) (pfx : String) :
    Except PyErr (Option PCAOut) := do
  let data ← pca_calculationLoop ⟨[], [], []⟩ files
  let data2 ← setIndex data "location"
  let _ ← pca_drawing data2 pfx none
  Except.ok none

/-- A valid contact record's six coordinate fields (§3 of the data model:
chromosomes are strings, coordinates non-negative integers).  The value
field is deliberately absent: the Canonical Key is a function of these six
fields only, and `prep` passes the value column through untouched. -/
structure Record where
  chr1 : String
  start1 : Nat
  end1 : Nat
  chr2 : String
  start2 : Nat
  end2 : Nat
deriving DecidableEq

/-- The Canonical Key string built on line 28 of `main.py`:
`chr1 + ':' + start1 + '-' + end1 + ';' + chr2 + ':' + start2 + '-' + end2`
with the coordinates rendered by `astype(str)` (left-associated
concatenation, exactly as Python evaluates it). -/
def tileKey (r : Record) : String :=
  r.chr1 ++ ":" ++ natStr r.start1 ++ "-" ++ natStr r.end1 ++ ";" ++
    r.chr2 ++ ":" ++ natStr r.start2 ++ "-" ++ natStr r.end2

/-- A one-row dataframe holding one contact record, with an arbitrary value
cell `v`, as `read_csv` would deliver it to `prep` (string chromosomes,
int64 coordinates). -/
def singletonFrame (r : Record) (v : Cell) : Frame :=
  ⟨["0"], fixedCols,
    [[Cell.s r.chr1, Cell.i r.start1, Cell.i r.end1, Cell.s r.chr2, Cell.i r.start2, Cell.i r.end2, v]]⟩

/-- File A of the end-to-end scenario: the single record
("chr1",0,100,"chr1",0,100,5.0), one tab-separated line. -/
def fileA : List String := ["chr1\t0\t100\tchr1\t0\t100\t5.0"]

/-- File B of the end-to-end scenario: the records
("chr1",0,100,"chr1",0,100,3.0) and ("chr1",100,200,"chr2",0,100,1.0). -/
def fileB : List String :=
  ["chr1\t0\t100\tchr1\t0\t100\t3.0", "chr1\t100\t200\tchr2\t0\t100\t1.0"]

/-- Decidable equality of `Except` results, for evaluating the embedding on
concrete inputs. -/
instance {ε α : Type} [DecidableEq ε] [DecidableEq α] : DecidableEq (Except ε α) := fun a b =>
  match a, b with
  | Except.ok x, Except.ok y =>
    if h : x = y then isTrue (by rw [h]) else isFalse (by intro hc; cases hc; exact h rfl)
  | Except.error x, Except.error y =>
    if h : x = y then isTrue (by rw [h]) else isFalse (by intro hc; cases hc; exact h rfl)
  | Except.ok _, Except.error _ => isFalse (by intro hc; cases hc)
  | Except.error _, Except.ok _ => isFalse (by intro hc; cases hc)

/-- The state of a record's dataframe after the four `astype(str)`
conversions of `prep`. -/
def postAstype (r : Record) (v : Cell) : Frame :=
  ⟨["0"], fixedCols,
    [[Cell.s r.chr1, Cell.s (natStr r.start1), Cell.s (natStr r.end1), Cell.s r.chr2,
      Cell.s (natStr r.start2), Cell.s (natStr r.end2), v]]⟩

/-- Numeric value of a digit character. -/
def charVal (c : Char) : Nat := c.toNat - 48

/-- Value of a little-endian digit-character list. -/
def ofDigitsLE : List Char → Nat
  | [] => 0
  | c :: cs => charVal c + 10 * ofDigitsLE cs

/-- Numeric value recovered from a decimal string (big-endian). -/
def valNat (str : String) : Nat := ofDigitsLE str.data.reverse

/-- Two valid records differ in exactly one of the six coordinate fields. -/
def diffOne (r s : Record) : Prop :=
  (r.chr1 ≠ s.chr1 ∧ r.start1 = s.start1 ∧ r.end1 = s.end1 ∧ r.chr2 = s.chr2 ∧
    r.start2 = s.start2 ∧ r.end2 = s.end2) ∨
  (r.chr1 = s.chr1 ∧ r.start1 ≠ s.start1 ∧ r.end1 = s.end1 ∧ r.chr2 = s.chr2 ∧
    r.start2 = s.start2 ∧ r.end2 = s.end2) ∨
  (r.chr1 = s.chr1 ∧ r.start1 = s.start1 ∧ r.end1 ≠ s.end1 ∧ r.chr2 = s.chr2 ∧
    r.start2 = s.start2 ∧ r.end2 = s.end2) ∨
  (r.chr1 = s.chr1 ∧ r.start1 = s.start1 ∧ r.end1 = s.end1 ∧ r.chr2 ≠ s.chr2 ∧
    r.start2 = s.start2 ∧ r.end2 = s.end2) ∨
  (r.chr1 = s.chr1 ∧ r.start1 = s.start1 ∧ r.end1 = s.end1 ∧ r.chr2 = s.chr2 ∧
    r.start2 ≠ s.start2 ∧ r.end2 = s.end2) ∨
  (r.chr1 = s.chr1 ∧ r.start1 = s.start1 ∧ r.end1 = s.end1 ∧ r.chr2 = s.chr2 ∧
    r.start2 = s.start2 ∧ r.end2 ≠ s.end2)

instance (r s : Record) : Decidable (diffOne r s) := by unfold diffOne; infer_instance

/-- A malformed file for the parse-error claim: the second line has only 6
tab-separated fields. -/
def fileM : List String :=
  ["chr1\t0\t100\tchr1\t0\t100\t5.0", "chr1\t100\t200\tchr2\t0\t100"]

/-- A well-formed single-sample file (first line is consumed as a header by
`read_csv`, one data line follows). -/
def fileS3 : List String :=
  ["chr1\t0\t100\tchr1\t0\t100\t2.0", "chr2\t0\t100\tchr2\t0\t100\t4.0"]

/-- Another well-formed single-sample file. -/
def fileS8 : List String :=
  ["chr1\t0\t50\tchr1\t0\t50\t7.0", "chr2\t0\t50\tchr2\t0\t50\t2.0"]

/-- A well-formed file of three 7-field lines, for counting loaded records. -/
def fileH : List String :=
  ["chr1\t0\t100\tchr1\t0\t100\t5.0",
   "chr1\t100\t200\tchr1\t100\t200\t6.0",
   "chr1\t200\t300\tchr1\t200\t300\t7.0"]

/-- Whether a loaded frame contains a NaN cell (false on errors). -/
def hasNanRow : Except PyErr Frame → Bool
  | Except.ok f => f.rows.any (fun r => r.contains Cell.nan)
  | Except.error _ => false

/-- Number of data rows of a loader result (0 on errors). -/
def okRowCount : Except PyErr Frame → Nat
  | Except.ok f => f.rows.length
  | Except.error _ => 0

/-- Whether a loader result succeeded. -/
def loadOk : Except PyErr Frame → Bool
  | Except.ok _ => true
  | Except.error _ => false

/-- Whether a `prep` result succeeded. -/
def prepOk : Except PyErr (Frame × Frame) → Bool
  | Except.ok _ => true
  | Except.error _ => false

/-- The post-state of the `prep` argument (the empty frame on errors). -/
def postFrame : Except PyErr (Frame × Frame) → Frame
  | Except.ok p => p.2
  | Except.error _ => ⟨[], [], []⟩

/-- A concrete 7-column one-record dataframe (column names as a caller might
have them before `prep` renames everything). -/
def df9 : Frame :=
  ⟨["0"], ["a", "b", "c", "d", "e", "f", "g"],
    [[Cell.s "chr1", Cell.i 0, Cell.i 100, Cell.s "chr1", Cell.i 0, Cell.i 100, Cell.f 50 1]]⟩

/-- A second concrete 7-column one-record dataframe. -/
def df9b : Frame :=
  ⟨["0"], ["q1", "q2", "q3", "q4", "q5", "q6", "q7"],
    [[Cell.s "chrX", Cell.i 5, Cell.i 10, Cell.s "chrY", Cell.i 15, Cell.i 20, Cell.f 3 0]]⟩

/-- A concrete assembled frame with 2 samples and 1 key. -/
def w5Frame : Frame :=
  ⟨["k1"], ["sampleA", "sampleB"], [[Cell.f 1 0, Cell.f 2 0]]⟩

/-- A concrete assembled frame with 3 samples and 3 keys (all numeric). -/
def wpcaFrame : Frame :=
  ⟨["k1", "k2", "k3"], ["sampleA", "sampleB", "sampleC"],
    [[Cell.f 1 0, Cell.f 2 0, Cell.f 3 0],
     [Cell.f 4 0, Cell.f 5 0, Cell.f 6 0],
     [Cell.f 7 0, Cell.f 8 0, Cell.f 9 0]]⟩

/-- The output `pca_drawing` produces on `wpcaFrame` with prefix `"w"`. -/
def wpcaOut : PCAOut :=
  ⟨["sampleA", "sampleB", "sampleC"], ["PC1", "PC2", "PC3"],
    Arr.pcaScores 3 (Arr.scaled wpcaFrame.T),
    ["k1", "k2", "k3"], ["PC1", "PC2", "PC3"],
    Arr.pcaComps 3 (Arr.scaled wpcaFrame.T),
    ["w.csv", "w_pca_plots.png", "w_components.csv"], 0⟩

/-- A concrete 7-column frame with plain header-like names, for the prep
renaming witness. -/
def df6w : Frame :=
  ⟨["0"], ["h1", "h2", "h3", "h4", "h5", "h6", "h7"],
    [[Cell.s "c", Cell.i 1, Cell.i 2, Cell.s "d", Cell.i 3, Cell.i 4, Cell.f 9 0]]⟩

/-- The result `prep` produces on `df6w` with name `"S"`. -/
def res6w : Frame × Frame :=
  (⟨["0"], ["location", "S"], [[Cell.s "c:1-2;d:3-4", Cell.f 9 0]]⟩,
   ⟨["0"], fixedCols ++ ["tile"],
     [[Cell.s "c", Cell.s "1", Cell.s "2", Cell.s "d", Cell.s "3", Cell.s "4", Cell.f 9 0,
       Cell.s "c:1-2;d:3-4"]]⟩)

/-- The result `prep` produces on `df9b` with name `"B"`. -/
def res9b : Frame × Frame :=
  (⟨["0"], ["location", "B"], [[Cell.s "chrX:5-10;chrY:15-20", Cell.f 3 0]]⟩,
   ⟨["0"], fixedCols ++ ["tile"],
     [[Cell.s "chrX", Cell.s "5", Cell.s "10", Cell.s "chrY", Cell.s "15", Cell.s "20",
       Cell.f 3 0, Cell.s "chrX:5-10;chrY:15-20"]]⟩)

lemma okBind {ε α β : Type} (a : α) (f : α → Except ε β) :
    (Except.ok a : Except ε α) >>= f = f a := rfl

/-- Running `prep` on a one-record dataframe returns the two-column frame
whose location cell is exactly `tileKey` of the record, and leaves the
argument frame mutated (renamed string-converted columns plus the added
tile column). -/
lemma prep_singleton (r : Record) (v : Cell) (nm : String) :
    prep (singletonFrame r v) nm =
    Except.ok (⟨["0"], ["location", nm], [[Cell.s (tileKey r), v]]⟩,
      ⟨["0"], fixedCols ++ ["tile"],
        [[Cell.s r.chr1, Cell.s (natStr r.start1), Cell.s (natStr r.end1), Cell.s r.chr2,
          Cell.s (natStr r.start2), Cell.s (natStr r.end2), v, Cell.s (tileKey r)]]⟩) := by
  have h1 : astypeStrCol ⟨["0"], fixedCols,
        [[Cell.s r.chr1, Cell.i r.start1, Cell.i r.end1, Cell.s r.chr2,
          Cell.i r.start2, Cell.i r.end2, v]]⟩ "start1" =
      Except.ok ⟨["0"], fixedCols,
        [[Cell.s r.chr1, Cell.s (natStr r.start1), Cell.i r.end1, Cell.s r.chr2,
          Cell.i r.start2, Cell.i r.end2, v]]⟩ := rfl
  have h2 : astypeStrCol ⟨["0"], fixedCols,
        [[Cell.s r.chr1, Cell.s (natStr r.start1), Cell.i r.end1, Cell.s r.chr2,
          Cell.i r.start2, Cell.i r.end2, v]]⟩ "end1" =
      Except.ok ⟨["0"], fixedCols,
        [[Cell.s r.chr1, Cell.s (natStr r.start1), Cell.s (natStr r.end1), Cell.s r.chr2,
          Cell.i r.start2, Cell.i r.end2, v]]⟩ := rfl
  have h3 : astypeStrCol ⟨["0"], fixedCols,
        [[Cell.s r.chr1, Cell.s (natStr r.start1), Cell.s (natStr r.end1), Cell.s r.chr2,
          Cell.i r.start2, Cell.i r.end2, v]]⟩ "start2" =
      Except.ok ⟨["0"], fixedCols,
        [[Cell.s r.chr1, Cell.s (natStr r.start1), Cell.s (natStr r.end1), Cell.s r.chr2,
          Cell.s (natStr r.start2), Cell.i r.end2, v]]⟩ := rfl
  have h4 : astypeStrCol ⟨["0"], fixedCols,
        [[Cell.s r.chr1, Cell.s (natStr r.start1), Cell.s (natStr r.end1), Cell.s r.chr2,
          Cell.s (natStr r.start2), Cell.i r.end2, v]]⟩ "end2" =
      Except.ok (postAstype r v) := rfl
  have g1 : getCol (postAstype r v) "chr1" = Except.ok [Cell.s r.chr1] := rfl
  have g2 : getCol (postAstype r v) "start1" = Except.ok [Cell.s (natStr r.start1)] := rfl
  have g3 : getCol (postAstype r v) "end1" = Except.ok [Cell.s (natStr r.end1)] := rfl
  have g4 : getCol (postAstype r v) "chr2" = Except.ok [Cell.s r.chr2] := rfl
  have g5 : getCol (postAstype r v) "start2" = Except.ok [Cell.s (natStr r.start2)] := rfl
  have g6 : getCol (postAstype r v) "end2" = Except.ok [Cell.s (natStr r.end2)] := rfl
  have k1 : seriesConcatLit [Cell.s r.chr1] ":" = Except.ok [Cell.s (r.chr1 ++ ":")] := rfl
  have k2 : seriesConcat [Cell.s (r.chr1 ++ ":")] [Cell.s (natStr r.start1)] =
      Except.ok [Cell.s (r.chr1 ++ ":" ++ natStr r.start1)] := rfl
  have k3 : seriesConcatLit [Cell.s (r.chr1 ++ ":" ++ natStr r.start1)] "-" =
      Except.ok [Cell.s (r.chr1 ++ ":" ++ natStr r.start1 ++ "-")] := rfl
  have k4 : seriesConcat [Cell.s (r.chr1 ++ ":" ++ natStr r.start1 ++ "-")] [Cell.s (natStr r.end1)] =
      Except.ok [Cell.s (r.chr1 ++ ":" ++ natStr r.start1 ++ "-" ++ natStr r.end1)] := rfl
  have k5 : seriesConcatLit [Cell.s (r.chr1 ++ ":" ++ natStr r.start1 ++ "-" ++ natStr r.end1)] ";" =
      Except.ok [Cell.s (r.chr1 ++ ":" ++ natStr r.start1 ++ "-" ++ natStr r.end1 ++ ";")] := rfl
  have k6 : seriesConcat [Cell.s (r.chr1 ++ ":" ++ natStr r.start1 ++ "-" ++ natStr r.end1 ++ ";")]
        [Cell.s r.chr2] =
      Except.ok [Cell.s (r.chr1 ++ ":" ++ natStr r.start1 ++ "-" ++ natStr r.end1 ++ ";" ++ r.chr2)] := rfl
  have k7 : seriesConcatLit
        [Cell.s (r.chr1 ++ ":" ++ natStr r.start1 ++ "-" ++ natStr r.end1 ++ ";" ++ r.chr2)] ":" =
      Except.ok [Cell.s (r.chr1 ++ ":" ++ natStr r.start1 ++ "-" ++ natStr r.end1 ++ ";" ++
        r.chr2 ++ ":")] := rfl
  have k8 : seriesConcat
        [Cell.s (r.chr1 ++ ":" ++ natStr r.start1 ++ "-" ++ natStr r.end1 ++ ";" ++ r.chr2 ++ ":")]
        [Cell.s (natStr r.start2)] =
      Except.ok [Cell.s (r.chr1 ++ ":" ++ natStr r.start1 ++ "-" ++ natStr r.end1 ++ ";" ++
        r.chr2 ++ ":" ++ natStr r.start2)] := rfl
  have k9 : seriesConcatLit
        [Cell.s (r.chr1 ++ ":" ++ natStr r.start1 ++ "-" ++ natStr r.end1 ++ ";" ++ r.chr2 ++ ":" ++
          natStr r.start2)] "-" =
      Except.ok [Cell.s (r.chr1 ++ ":" ++ natStr r.start1 ++ "-" ++ natStr r.end1 ++ ";" ++
        r.chr2 ++ ":" ++ natStr r.start2 ++ "-")] := rfl
  have k10 : seriesConcat
        [Cell.s (r.chr1 ++ ":" ++ natStr r.start1 ++ "-" ++ natStr r.end1 ++ ";" ++ r.chr2 ++ ":" ++
          natStr r.start2 ++ "-")] [Cell.s (natStr r.end2)] =
      Except.ok [Cell.s (tileKey r)] := rfl
  have hset : setCol (postAstype r v) "tile" [Cell.s (tileKey r)] =
      ⟨["0"], fixedCols ++ ["tile"],
        [[Cell.s r.chr1, Cell.s (natStr r.start1), Cell.s (natStr r.end1), Cell.s r.chr2,
          Cell.s (natStr r.start2), Cell.s (natStr r.end2), v, Cell.s (tileKey r)]]⟩ := rfl
  have gt : getCol ⟨["0"], fixedCols ++ ["tile"],
        [[Cell.s r.chr1, Cell.s (natStr r.start1), Cell.s (natStr r.end1), Cell.s r.chr2,
          Cell.s (natStr r.start2), Cell.s (natStr r.end2), v, Cell.s (tileKey r)]]⟩ "tile" =
      Except.ok [Cell.s (tileKey r)] := rfl
  have gv : getCol ⟨["0"], fixedCols ++ ["tile"],
        [[Cell.s r.chr1, Cell.s (natStr r.start1), Cell.s (natStr r.end1), Cell.s r.chr2,
          Cell.s (natStr r.start2), Cell.s (natStr r.end2), v, Cell.s (tileKey r)]]⟩ "value" =
      Except.ok [v] := rfl
  have ht : tileSeries (postAstype r v) = Except.ok [Cell.s (tileKey r)] := by
    unfold tileSeries
    rw [g1, okBind, g2, okBind, g3, okBind, g4, okBind, g5, okBind, g6, okBind]
    rw [k1, okBind, k2, okBind, k3, okBind, k4, okBind, k5, okBind]
    rw [k6, okBind, k7, okBind, k8, okBind, k9, okBind]
    exact k10
  unfold prep
  rw [if_pos (show (singletonFrame r v).cols.length = 7 from rfl)]
  simp only [singletonFrame]
  rw [h1, okBind, h2, okBind, h3, okBind, h4, okBind]
  rw [ht, okBind, hset, gt, okBind, gv, okBind]
  rfl

lemma charVal_digitChar (m : Nat) (h : m < 10) : charVal (Nat.digitChar m) = m := by
  interval_cases m <;> rfl

lemma natDigitsAux_val : ∀ fuel n, n ≤ fuel → ofDigitsLE (natDigitsAux fuel n) = n := by
  intro fuel
  induction fuel with
  | zero => intro n h; interval_cases n; rfl
  | succ f ih =>
    intro n h
    match n with
    | 0 => rfl
    | m + 1 =>
      have hdiv : (m + 1) / 10 ≤ f := by
        have := Nat.div_lt_self (Nat.succ_pos m) (by norm_num : 1 < 10)
        omega
      show ofDigitsLE (Nat.digitChar ((m + 1) % 10) :: natDigitsAux f ((m + 1) / 10)) = m + 1
      show charVal (Nat.digitChar ((m + 1) % 10)) + 10 * ofDigitsLE (natDigitsAux f ((m + 1) / 10)) = m + 1
      rw [ih _ hdiv, charVal_digitChar _ (Nat.mod_lt _ (by norm_num))]
      exact Nat.mod_add_div (m + 1) 10

lemma valNat_natStr (n : Nat) : valNat (natStr n) = n := by
  unfold natStr
  by_cases h : n = 0
  · rw [if_pos h, h]; rfl
  · rw [if_neg h]
    show ofDigitsLE (natDigitsAux n n).reverse.reverse = n
    rw [List.reverse_reverse]
    exact natDigitsAux_val n n le_rfl

/-- Python decimal rendering of naturals is injective. -/
lemma natStr_inj {m n : Nat} (h : natStr m = natStr n) : m = n := by
  have := congrArg valNat h
  rwa [valNat_natStr, valNat_natStr] at this

lemma sdata_append (a b : String) : (a ++ b).data = a.data ++ b.data := rfl

lemma sdata_inj {a b : String} (h : a.data = b.data) : a = b := by
  cases a; cases b; exact congrArg String.mk h

/-- The character-list form of a Canonical Key. -/
lemma tileKey_data (r : Record) :
    (tileKey r).data =
      r.chr1.data ++ ':' :: ((natStr r.start1).data ++ '-' :: ((natStr r.end1).data ++
        ';' :: (r.chr2.data ++ ':' :: ((natStr r.start2).data ++ '-' :: (natStr r.end2).data)))) := by
  simp only [tileKey, sdata_append, List.append_assoc]
  rfl

/-- Changing exactly one of the six coordinate fields changes the Canonical
Key. -/
lemma tileKey_diffOne {r s : Record} (h : diffOne r s) : tileKey r ≠ tileKey s := by
  intro hk
  have hd := congrArg String.data hk
  rw [tileKey_data, tileKey_data] at hd
  rcases h with ⟨h1, h2, h3, h4, h5, h6⟩ | ⟨h1, h2, h3, h4, h5, h6⟩ | ⟨h1, h2, h3, h4, h5, h6⟩ |
    ⟨h1, h2, h3, h4, h5, h6⟩ | ⟨h1, h2, h3, h4, h5, h6⟩ | ⟨h1, h2, h3, h4, h5, h6⟩
  · rw [h2, h3, h4, h5, h6] at hd
    exact h1 (sdata_inj (List.append_cancel_right hd))
  · rw [h1, h3, h4, h5, h6] at hd
    have p1 := List.append_cancel_left hd
    injection p1 with q1 p2
    exact h2 (natStr_inj (sdata_inj (List.append_cancel_right p2)))
  · rw [h1, h2, h4, h5, h6] at hd
    have p1 := List.append_cancel_left hd
    injection p1 with q1 p2
    have p3 := List.append_cancel_left p2
    injection p3 with q2 p4
    exact h3 (natStr_inj (sdata_inj (List.append_cancel_right p4)))
  · rw [h1, h2, h3, h5, h6] at hd
    have p1 := List.append_cancel_left hd
    injection p1 with q1 p2
    have p3 := List.append_cancel_left p2
    injection p3 with q2 p4
    have p5 := List.append_cancel_left p4
    injection p5 with q3 p6
    exact h4 (sdata_inj (List.append_cancel_right p6))
  · rw [h1, h2, h3, h4, h6] at hd
    have p1 := List.append_cancel_left hd
    injection p1 with q1 p2
    have p3 := List.append_cancel_left p2
    injection p3 with q2 p4
    have p5 := List.append_cancel_left p4
    injection p5 with q3 p6
    have p7 := List.append_cancel_left p6
    injection p7 with q4 p8
    exact h5 (natStr_inj (sdata_inj (List.append_cancel_right p8)))
  · rw [h1, h2, h3, h4, h5] at hd
    have p1 := List.append_cancel_left hd
    injection p1 with q1 p2
    have p3 := List.append_cancel_left p2
    injection p3 with q2 p4
    have p5 := List.append_cancel_left p4
    injection p5 with q3 p6
    have p7 := List.append_cancel_left p6
    injection p7 with q4 p8
    have p9 := List.append_cancel_left p8
    injection p9 with q5 p10
    exact h6 (natStr_inj (sdata_inj p10))

lemma errBind {ε α β : Type} (e : ε) (f : α → Except ε β) :
    (Except.error e : Except ε α) >>= f = Except.error e := rfl

/-- No invocation of `pca_calculation` can succeed: with no samples the
initial empty frame has no `location` column and `set_index` raises
`KeyError` (line 128); with at least one sample, either loading fails, or
the single-argument call `prep(temp)` on line 126 raises `TypeError` in the
first loop iteration. -/
lemma pca_calculation_never_ok (files : List (String × List String)) (pfx : String) :
    ∃ e, pca_calculation files pfx = Except.error e := by
  match files with
  | [] => exact ⟨PyErr.keyError, rfl⟩
  | (nm, contents) :: rest =>
    cases hload : load_microC nm contents with
    | error e =>
      refine ⟨e, ?_⟩
      unfold pca_calculation pca_calculationLoop
      rw [hload, errBind, errBind]
    | ok temp =>
      refine ⟨PyErr.typeError, ?_⟩
      unfold pca_calculation pca_calculationLoop
      rw [hload, okBind]
      show ((prepCall temp none >>= fun p => pdMerge ⟨[], [], []⟩ p.1 "location" >>= fun merged =>
        pca_calculationLoop (fillna0 merged) rest) >>= fun data => setIndex data "location" >>=
          fun data2 => pca_drawing data2 pfx none >>= fun _ => Except.ok none) = Except.error PyErr.typeError
      rfl

/-- When the looked-up column exists, `astype(str)` assignment succeeds and
preserves the index and the column names. -/
lemma astypeStrCol_shape (idx cols : List String) (rows : List (List Cell)) (c : String) (j : Nat)
    (hj : colIdx ⟨idx, cols, rows⟩ c = some j) :
    ∃ rows2, astypeStrCol ⟨idx, cols, rows⟩ c = Except.ok ⟨idx, cols, rows2⟩ := by
  refine ⟨(rows.zip ((rows.map (fun r => r.getD j Cell.nan)).map
    (fun x => Cell.s (pyStr x)))).map (fun p => p.1.set j p.2), ?_⟩
  unfold astypeStrCol getCol setCol
  rw [hj]
  rfl

/-- Destructure a successful `Except` bind: the first stage succeeded and
the continuation succeeded on its value. -/
lemma bindOkElim {ε α β : Type} {x : Except ε α} {f : α → Except ε β} {b : β}
    (h : x >>= f = Except.ok b) : ∃ a, x = Except.ok a ∧ f a = Except.ok b := by
  cases x with
  | ok a => exact ⟨a, rfl, h⟩
  | error e => exact Except.noConfusion h

/-- Injectivity of `Except.ok`. -/
lemma okInj {ε α : Type} {a b : α} (h : (Except.ok a : Except ε α) = Except.ok b) : a = b := by
  cases h; rfl

/-- Shape of every successful `prep` outcome: the argument had 7 columns;
the returned frame's columns are exactly `["location", df_name]`
(positional renaming, independent of the argument's column names); the
mutated argument ends with the 7 fixed names plus the appended `tile`
column; both keep the argument's index. -/
lemma prep_ok_shape (df : Frame) (nm : String) (res : Frame × Frame)
    (h : prep df nm = Except.ok res) :
    df.cols.length = 7 ∧ res.1.cols = ["location", nm] ∧
      res.2.cols = fixedCols ++ ["tile"] ∧ res.1.idx = df.idx ∧ res.2.idx = df.idx := by
  unfold prep at h
  split at h
  case isFalse => exact absurd h (by simp)
  case isTrue hlen =>
    refine ⟨hlen, ?_⟩
    obtain ⟨r2, a1⟩ := astypeStrCol_shape df.idx fixedCols df.rows "start1" 1 rfl
    simp only [a1, okBind] at h
    obtain ⟨r3, a2⟩ := astypeStrCol_shape df.idx fixedCols r2 "end1" 2 rfl
    simp only [a2, okBind] at h
    obtain ⟨r4, a3⟩ := astypeStrCol_shape df.idx fixedCols r3 "start2" 4 rfl
    simp only [a3, okBind] at h
    obtain ⟨r5, a4⟩ := astypeStrCol_shape df.idx fixedCols r4 "end2" 5 rfl
    simp only [a4, okBind] at h
    obtain ⟨tile, hct, h⟩ := bindOkElim h
    simp only [show setCol ⟨df.idx, fixedCols, r5⟩ "tile" tile =
      ⟨df.idx, fixedCols ++ ["tile"], (r5.zip tile).map (fun p => p.1 ++ [p.2])⟩ from rfl] at h
    simp only [show getCol ⟨df.idx, fixedCols ++ ["tile"], (r5.zip tile).map (fun p => p.1 ++ [p.2])⟩ "tile" =
      Except.ok (((r5.zip tile).map (fun p => p.1 ++ [p.2])).map (fun r => r.getD 7 Cell.nan)) from rfl,
      okBind] at h
    simp only [show getCol ⟨df.idx, fixedCols ++ ["tile"], (r5.zip tile).map (fun p => p.1 ++ [p.2])⟩ "value" =
      Except.ok (((r5.zip tile).map (fun p => p.1 ++ [p.2])).map (fun r => r.getD 6 Cell.nan)) from rfl,
      okBind] at h
    have hres := okInj h
    rw [← hres]
    exact ⟨rfl, rfl, rfl, rfl⟩

/-- C1: the spec's end-to-end scenario says running the pipeline
(`pca_calculation` over `load_microC` and `prep`) on files A and B produces
a 2-row, 2-column Assembled Matrix with a 0.0 fill.  The code cannot: in
the first loop iteration, line 126 calls `prep(temp)` with one argument
while `prep` requires two, so Python raises `TypeError` and the run aborts
before any matrix (or output file) exists.  Evaluating the embedded
pipeline on exactly the scenario's two files yields that `TypeError`.
(Independently, `read_csv`'s default header also swallows file A's only
record — see the C6 theorems.) -/
theorem C1_scenario_pipeline_raises_typeError :
    pca_calculation [("A", fileA), ("B", fileB)] "test" = Except.error PyErr.typeError := by
  decide

/-- C2: the Canonical Key built by `prep` for a record is the string
`chr1:start1-end1;chr2:start2-end2` — running `prep` on a one-record frame
returns exactly `tileKey` of the record as the location cell, for any value
cell and sample name; the key is a deterministic pure function of the six
coordinate fields (records agreeing on all six get identical keys, whatever
their values); and two valid records differing in any one of the six
coordinate fields get different keys. -/
theorem C2_canonical_key_deterministic_injective :
    (∀ (r : Record) (v : Cell) (nm : String),
        (prep (singletonFrame r v) nm).map (fun p => p.1) =
          Except.ok ⟨["0"], ["location", nm], [[Cell.s (tileKey r), v]]⟩) ∧
    (∀ r s : Record, r.chr1 = s.chr1 → r.start1 = s.start1 → r.end1 = s.end1 →
        r.chr2 = s.chr2 → r.start2 = s.start2 → r.end2 = s.end2 → tileKey r = tileKey s) ∧
    (∀ r s : Record, diffOne r s → tileKey r ≠ tileKey s) := by
  refine ⟨?_, ?_, ?_⟩
  · intro r v nm
    rw [prep_singleton]
    rfl
  · intro r s h1 h2 h3 h4 h5 h6
    unfold tileKey
    rw [h1, h2, h3, h4, h5, h6]
  · intro r s hd
    exact tileKey_diffOne hd

/-- Witness for C2 at concrete records: the two records differ exactly in
`end1` and their keys differ; `prep` on a concrete one-record frame returns
the record's key. -/
theorem C2_witness :
    diffOne ⟨"chr1", 0, 100, "chr1", 0, 100⟩ ⟨"chr1", 0, 200, "chr1", 0, 100⟩ ∧
    tileKey ⟨"chr1", 0, 100, "chr1", 0, 100⟩ ≠ tileKey ⟨"chr1", 0, 200, "chr1", 0, 100⟩ ∧
    (prep (singletonFrame ⟨"chr1", 0, 100, "chr1", 0, 100⟩ (Cell.f 50 1)) "A").map (fun p => p.1) =
      Except.ok ⟨["0"], ["location", "A"],
        [[Cell.s (tileKey ⟨"chr1", 0, 100, "chr1", 0, 100⟩), Cell.f 50 1]]⟩ :=
  ⟨by decide,
   C2_canonical_key_deterministic_injective.2.2 _ _ (by decide),
   C2_canonical_key_deterministic_injective.1 ⟨"chr1", 0, 100, "chr1", 0, 100⟩ (Cell.f 50 1) "A"⟩

/-- C3: the claim says the merge loop of `pca_calculation` gives every key
of every Sample Vector a defined value in every column.  The loop as
written never assembles anything: on the concrete single-sample input it
raises `TypeError` at the one-argument `prep(temp)` call (line 126), and in
general every invocation of `pca_calculation` ends in an error (second
conjunct), so no key is ever defined in any assembled matrix. -/
theorem C3_assembler_never_defines_any_key :
    pca_calculation [("S", fileS3)] "out" = Except.error PyErr.typeError ∧
    ∀ (files : List (String × List String)) (pfx : String),
      ∃ e, pca_calculation files pfx = Except.error e :=
  ⟨by decide, fun files pfx => pca_calculation_never_ok files pfx⟩

/-- Counterexample for C4: the claim says a row with fewer than 7 fields
makes the run fail with a ParseError and that no field is silently coerced
to NaN.  On `fileM` (second line has 6 fields) `read_csv` succeeds and the
loaded frame contains a NaN cell (silent padding), and the run fails with
`TypeError` (the line 126 arity bug), not with a parse error. -/
theorem C4_counterexample_short_row_not_parse_error :
    hasNanRow (read_csv fileM) = true ∧
    pca_calculation [("M", fileM)] "test" = Except.error PyErr.typeError := by
  decide

/-- Counterexample for C6: the claim says every line of the file, including
the first, contributes one record.  On the 3-line file `fileH` the loader
succeeds but returns 2 records: `read_csv`'s default `header=0` consumes
the first line as a header. -/
theorem C6_counterexample_first_line_consumed :
    fileH.length = 3 ∧ loadOk (load_microC "S" fileH) = true ∧
    okRowCount (load_microC "S" fileH) = 2 := by
  decide

/-- C8: the claim says assembling from exactly one Sample Vector yields
that sample's own vector (identity).  The code instead raises `TypeError`
at the one-argument `prep(temp)` call in the first loop iteration, so even
the single-sample assembly produces no matrix at all. -/
theorem C8_single_sample_assembly_raises_typeError :
    pca_calculation [("S1", fileS8)] "p8" = Except.error PyErr.typeError := by
  decide

/-- Counterexample for C9: the claim says `prep(df, name)` leaves the
caller's `df` unchanged.  On the concrete frame `df9` the call succeeds and
the post-state of the argument differs from `df9` (columns renamed,
start/end converted to strings, a `tile` column appended). -/
theorem C9_counterexample_prep_mutates :
    prepOk (prep df9 "A") = true ∧ postFrame (prep df9 "A") ≠ df9 := by
  decide

/-- Amended C9: `prep` mutates its argument — on every successful call the
argument's post-state carries the renamed fixed columns plus the appended
`tile` column and so differs from the frame the caller passed in — while
the returned table is a fresh two-column frame `["location", name]`. -/
theorem C9_amended_prep_mutates_argument :
    ∀ (df : Frame) (nm : String) (res : Frame × Frame), prep df nm = Except.ok res →
      res.2.cols = fixedCols ++ ["tile"] ∧ res.2 ≠ df ∧ res.1.cols = ["location", nm] := by
  intro df nm res h
  obtain ⟨h7, hres1, hres2, _, _⟩ := prep_ok_shape df nm res h
  refine ⟨hres2, ?_, hres1⟩
  intro heq
  have hlen : res.2.cols.length = df.cols.length := by rw [heq]
  rw [hres2, h7] at hlen
  exact absurd hlen (by decide)

/-- Witness for the amended C9 at a concrete input: `prep df9b "B"`
succeeds with result `res9b`, whose post-state differs from `df9b`. -/
theorem C9_amended_witness :
    res9b.2.cols = fixedCols ++ ["tile"] ∧ res9b.2 ≠ df9b ∧ res9b.1.cols = ["location", "B"] :=
  C9_amended_prep_mutates_argument df9b "B" res9b (by decide)

lemma T_rows_length (df : Frame) : (Frame.T df).rows.length = df.cols.length := by
  simp [Frame.T]

lemma T_cols (df : Frame) : (Frame.T df).cols = df.idx := rfl

/-- C5: requesting 3 principal components on an Assembled Matrix with fewer
than 3 samples fails rather than producing a result: whatever the data,
`pca_drawing` returns the `ValueError` sklearn raises for its input checks
(the ConfigError of the spec's taxonomy: PCA's n_components=3 check
`0 <= n_components <= min(n_samples, n_features)` cannot pass with fewer
than 3 samples, and the scaler's emptiness check catches degenerate input
first). -/
theorem C5_pca_under_three_samples_errors :
    ∀ (data : Frame) (pfx : String) (c : Nat), data.cols.length < 3 →
      pca_drawing data pfx (some c) = Except.error PyErr.valueError := by
  intro data pfx c hlt
  have hs : (Frame.T data).rows.length = data.cols.length := T_rows_length data
  simp only [pca_drawing]
  split
  · rfl
  · split
    · rfl
    · split
      · rfl
      · next hnz _ hcomp =>
        exfalso
        apply hcomp
        intro hand
        omega

/-- Witness for C5: on the concrete 2-sample frame `w5Frame` (2 < 3
samples), `pca_drawing` returns `ValueError` for any requested component
count. -/
theorem C5_witness :
    w5Frame.cols.length < 3 ∧ pca_drawing w5Frame "w" (some 3) = Except.error PyErr.valueError :=
  ⟨by decide, C5_pca_under_three_samples_errors w5Frame "w" 3 (by decide)⟩

/-- C10: `pca_drawing` ignores the value of its `components` argument
(line 56 hard-codes `PCA(n_components=3)`): its outcome is the same for any
two supplied component counts, and every successful outcome consists of a
3-component score array and loadings array labelled PC1/PC2/PC3 and the
return value 0 (line 95). -/
theorem C10_components_ignored_three_fixed :
    ∀ (data : Frame) (pfx : String) (c c2 : Nat),
      pca_drawing data pfx (some c) = pca_drawing data pfx (some c2) ∧
      (∀ out, pca_drawing data pfx (some c) = Except.ok out →
        out.scores = Arr.pcaScores 3 (Arr.scaled data.T) ∧
        out.loadings = Arr.pcaComps 3 (Arr.scaled data.T) ∧
        out.scoresCols = ["PC1", "PC2", "PC3"] ∧
        out.loadingsCols = ["PC1", "PC2", "PC3"] ∧
        out.ret = 0) := by
  intro data pfx c c2
  refine ⟨rfl, ?_⟩
  intro out h
  simp only [pca_drawing] at h
  split at h
  · exact Except.noConfusion h
  · split at h
    · exact Except.noConfusion h
    · split at h
      · exact Except.noConfusion h
      · rw [← okInj h]
        exact ⟨rfl, rfl, rfl, rfl, rfl⟩

/-- Witness for C10 at a concrete 3-sample, 3-key frame: two different
component arguments give the same call outcome, and the concrete successful
output `wpcaOut` has the claimed 3-component shape and return value. -/
theorem C10_witness :
    pca_drawing wpcaFrame "w" (some 5) = pca_drawing wpcaFrame "w" (some 9) ∧
    wpcaOut.scores = Arr.pcaScores 3 (Arr.scaled wpcaFrame.T) ∧ wpcaOut.ret = 0 :=
  ⟨(C10_components_ignored_three_fixed wpcaFrame "w" 5 9).1,
   ((C10_components_ignored_three_fixed wpcaFrame "w" 5 9).2 wpcaOut (by decide)).1,
   ((C10_components_ignored_three_fixed wpcaFrame "w" 5 9).2 wpcaOut (by decide)).2.2.2.2⟩

lemma splitTabAux_length_pos : ∀ (cs acc : List Char), 0 < (splitTabAux cs acc).length := by
  intro cs
  induction cs with
  | nil => intro acc; simp [splitTabAux]
  | cons c cs ih =>
    intro acc
    simp only [splitTabAux]
    split
    · simp
    · exact ih _

lemma splitTab_length_pos (l : String) : 0 < (splitTab l).length :=
  splitTabAux_length_pos l.data []

lemma establishedWidth_of_le {n : Nat} {rs : List (List String)}
    (h : ∀ r ∈ rs, r.length ≤ n) : establishedWidth n rs = n := by
  cases rs with
  | nil => rfl
  | cons r rs2 => exact max_eq_left (h r (List.mem_cons_self r rs2))

/-- A blank line is removed by the blank-line filter. -/
lemma filter_blank_cons (rest : List String) :
    (("" : String) :: rest).filter (fun l => !l.data.isEmpty) =
      rest.filter (fun l => !l.data.isEmpty) :=
  List.filter_cons_of_neg (by decide)

/-- Amended C4: a data row with more fields than the file's established
width aborts the load with pandas `ParserError` (part 1: an over-long row
after a first data row no wider than the header); an over-long FIRST data
row, however, is loaded silently — pandas' implied-index behaviour turns
its extra leading fields into the row index (part 2); a row with fewer
than 7 fields is silently padded with NaN and causes no error — every
loaded row has exactly the header's field count (part 3); and no output
file is ever produced: every `pca_calculation` run aborts with an error
before reaching any writer (part 4). -/
theorem C4_amended_parse_and_abort_behaviour :
    (∀ (hdr r1 : String) (rest2 : List String),
        hdr.data.isEmpty = false → r1.data.isEmpty = false →
        (splitTab r1).length ≤ (splitTab hdr).length →
        (∃ line ∈ rest2, (splitTab hdr).length < (splitTab line).length) →
        read_csv (hdr :: r1 :: rest2) = Except.error PyErr.parserError) ∧
    (∀ (hdr r1 : String) (rest2 : List String),
        hdr.data.isEmpty = false → r1.data.isEmpty = false →
        (splitTab hdr).length < (splitTab r1).length →
        (∀ line ∈ rest2, line.data.isEmpty = true ∨ (splitTab line).length ≤ (splitTab r1).length) →
        ∃ f, read_csv (hdr :: r1 :: rest2) = Except.ok f ∧
          f.cols = mangleDup (splitTab hdr) ∧
          f.rows.length = ((r1 :: rest2).filter (fun l => !l.data.isEmpty)).length) ∧
    (∀ (hdr : String) (rest : List String), hdr.data.isEmpty = false →
        (∀ line ∈ rest, (splitTab line).length ≤ (splitTab hdr).length) →
        ∃ f, read_csv (hdr :: rest) = Except.ok f ∧
          ∀ row ∈ f.rows, row.length = (splitTab hdr).length) ∧
    (∀ (files : List (String × List String)) (pfx : String),
        ∃ e, pca_calculation files pfx = Except.error e) := by
  refine ⟨?_, ?_, ?_, fun files pfx => pca_calculation_never_ok files pfx⟩
  · intro hdr r1 rest2 hh hr hle hex
    obtain ⟨line, hmem, hlt⟩ := hex
    have hlb : line.data.isEmpty = false := by
      cases hq : line.data.isEmpty
      · rfl
      · exfalso
        have hnil : line.data = [] := List.isEmpty_iff.mp hq
        have : splitTab line = [""] := by simp [splitTab, hnil, splitTabAux]
        rw [this] at hlt
        have hpos := splitTab_length_pos hdr
        simp only [List.length_cons, List.length_nil] at hlt
        omega
    unfold read_csv
    rw [List.filter_cons_of_pos (by simp [hh]), List.filter_cons_of_pos (by simp [hr])]
    simp only [readCsvAux, List.map_cons]
    simp only [show establishedWidth (splitTab hdr).length
          (splitTab r1 :: (rest2.filter (fun l => !l.data.isEmpty)).map splitTab) =
        (splitTab hdr).length from max_eq_left hle]
    split
    · rfl
    · next hfalse =>
      exfalso
      apply hfalse
      rw [List.any_eq_true]
      refine ⟨splitTab line, ?_, by simpa using hlt⟩
      exact List.mem_cons_of_mem _
        (List.mem_map_of_mem _ (List.mem_filter.mpr ⟨hmem, by simp [hlb]⟩))
  · intro hdr r1 rest2 hh hr hgt hb
    unfold read_csv
    rw [List.filter_cons_of_pos (by simp [hh]), List.filter_cons_of_pos (by simp [hr])]
    simp only [readCsvAux, List.map_cons]
    simp only [show establishedWidth (splitTab hdr).length
          (splitTab r1 :: (rest2.filter (fun l => !l.data.isEmpty)).map splitTab) =
        (splitTab r1).length from max_eq_right (Nat.le_of_lt hgt)]
    rw [if_neg ?hcond]
    case hcond =>
      intro hany
      rw [List.any_eq_true] at hany
      obtain ⟨r, hrmem, hrlt⟩ := hany
      have hrlt2 : (splitTab r1).length < r.length := by simpa using hrlt
      rcases List.mem_cons.mp hrmem with rfl | hrm
      · omega
      · obtain ⟨line, hlmem, rfl⟩ := List.mem_map.mp hrm
        have hline := List.mem_filter.mp hlmem
        rcases hb line hline.1 with hbl | hbl
        · rw [hbl] at hline
          simp at hline
        · omega
    refine ⟨_, rfl, rfl, ?_⟩
    simp
  · intro hdr rest hh hle
    unfold read_csv
    rw [List.filter_cons_of_pos (by simp [hh])]
    simp only [readCsvAux]
    have hmle : ∀ r ∈ (rest.filter (fun l => !l.data.isEmpty)).map splitTab,
        r.length ≤ (splitTab hdr).length := by
      intro r hr
      obtain ⟨line, hlmem, rfl⟩ := List.mem_map.mp hr
      exact hle line (List.mem_filter.mp hlmem).1
    simp only [establishedWidth_of_le hmle]
    rw [if_neg ?hcond3]
    case hcond3 =>
      intro hany
      rw [List.any_eq_true] at hany
      obtain ⟨r, hrmem, hrlt⟩ := hany
      have := hmle r hrmem
      have hrlt2 : (splitTab hdr).length < r.length := by simpa using hrlt
      omega
    refine ⟨_, rfl, ?_⟩
    intro row hrow
    obtain ⟨i, _, rfl⟩ := List.mem_map.mp hrow
    simp

/-- Witness for the amended C4 at concrete inputs.  Part 1: a 3-field row
after a 2-field first data row fails with `ParserError`.  Part 2: the
over-long FIRST data row `"x\ty\tz"` against the 2-field header `"a\tb"`
loads successfully (implied index — this is exactly the input on which the
load does NOT fail).  Part 3: a 1-field row against a 2-field header loads
with the row padded to 2 cells.  Part 4: the empty run errors. -/
theorem C4_amended_witness :
    read_csv ["a\tb", "x\ty", "p\tq\tr"] = Except.error PyErr.parserError ∧
    (∃ f, read_csv ["a\tb", "x\ty\tz"] = Except.ok f ∧
      f.cols = mangleDup (splitTab "a\tb") ∧
      f.rows.length = ((["x\ty\tz"] : List String).filter (fun l => !l.data.isEmpty)).length) ∧
    (∃ f, read_csv ["a\tb", "x"] = Except.ok f ∧
      ∀ row ∈ f.rows, row.length = (splitTab "a\tb").length) ∧
    (∃ e, pca_calculation [] "w" = Except.error e) :=
  ⟨C4_amended_parse_and_abort_behaviour.1 "a\tb" "x\ty" ["p\tq\tr"] (by decide) (by decide)
      (by decide) ⟨"p\tq\tr", by decide, by decide⟩,
   C4_amended_parse_and_abort_behaviour.2.1 "a\tb" "x\ty\tz" [] (by decide) (by decide)
      (by decide) (by decide),
   C4_amended_parse_and_abort_behaviour.2.2.1 "a\tb" ["x"] (by decide) (by decide),
   C4_amended_parse_and_abort_behaviour.2.2.2 [] "w"⟩

/-- Amended C6: blank lines are skipped outright, and the first remaining
line is consumed as a header (pandas `read_csv` defaults
`skip_blank_lines=True`, `header=0`), so the first line contributes no
record; on a blank-free file whose data lines fit the header, each line
after the first contributes exactly one record and the column names are
the (duplicate-mangled) header fields; those file-derived names are then
discarded — whenever `prep` succeeds it renames the returned columns
positionally to `["location", name]`, whatever the input column names
were. -/
theorem C6_amended_header_line_consumed :
    (∀ (hdr : String) (rest : List String),
        read_csv (hdr :: "" :: rest) = read_csv (hdr :: rest)) ∧
    (∀ (hdr : String) (rest : List String), hdr.data.isEmpty = false →
        (∀ line ∈ rest, line.data.isEmpty = false) →
        (∀ line ∈ rest, (splitTab line).length ≤ (splitTab hdr).length) →
        ∃ f, read_csv (hdr :: rest) = Except.ok f ∧
          f.rows.length = rest.length ∧ f.cols = mangleDup (splitTab hdr)) ∧
    (∀ (df : Frame) (nm : String) (res : Frame × Frame), prep df nm = Except.ok res →
        res.1.cols = ["location", nm]) := by
  refine ⟨?_, ?_, ?_⟩
  · intro hdr rest
    unfold read_csv
    cases hh : hdr.data.isEmpty with
    | true =>
      have e1 : (hdr :: "" :: rest).filter (fun l => !l.data.isEmpty) =
          rest.filter (fun l => !l.data.isEmpty) := by
        rw [List.filter_cons_of_neg (by simp [hh]), filter_blank_cons]
      have e2 : (hdr :: rest).filter (fun l => !l.data.isEmpty) =
          rest.filter (fun l => !l.data.isEmpty) := by
        rw [List.filter_cons_of_neg (by simp [hh])]
      rw [e1, e2]
    | false =>
      have e1 : (hdr :: "" :: rest).filter (fun l => !l.data.isEmpty) =
          hdr :: rest.filter (fun l => !l.data.isEmpty) := by
        rw [List.filter_cons_of_pos (by simp [hh]), filter_blank_cons]
      have e2 : (hdr :: rest).filter (fun l => !l.data.isEmpty) =
          hdr :: rest.filter (fun l => !l.data.isEmpty) := by
        rw [List.filter_cons_of_pos (by simp [hh])]
      rw [e1, e2]
  · intro hdr rest hh hnb hle
    have hself : rest.filter (fun l => !l.data.isEmpty) = rest :=
      List.filter_eq_self.mpr (fun line hl => by simp [hnb line hl])
    unfold read_csv
    rw [List.filter_cons_of_pos (by simp [hh]), hself]
    simp only [readCsvAux]
    have hmle : ∀ r ∈ rest.map splitTab, r.length ≤ (splitTab hdr).length := by
      intro r hr
      obtain ⟨line, hlmem, rfl⟩ := List.mem_map.mp hr
      exact hle line hlmem
    simp only [establishedWidth_of_le hmle]
    rw [if_neg ?hcond6]
    case hcond6 =>
      intro hany
      rw [List.any_eq_true] at hany
      obtain ⟨r, hrmem, hrlt⟩ := hany
      have := hmle r hrmem
      have hrlt2 : (splitTab hdr).length < r.length := by simpa using hrlt
      omega
    exact ⟨_, rfl, by simp, rfl⟩
  · intro df nm res h
    exact (prep_ok_shape df nm res h).2.1

/-- Witness for the amended C6 at concrete inputs: inserting a blank line
after the header leaves the load unchanged; a 2-line file with the
duplicated header `a, b, a` loads to 1 data row with the mangled names
`a, b, a.1`; and `prep` on the concrete frame `df6w` returns columns
`["location","S"]` although `df6w`'s own columns are `h1..h7`. -/
theorem C6_amended_witness :
    read_csv ["a\tb\ta", "", "1\t2\t3"] = read_csv ["a\tb\ta", "1\t2\t3"] ∧
    (∃ f, read_csv ["a\tb\ta", "1\t2\t3"] = Except.ok f ∧
      f.rows.length = 1 ∧ f.cols = mangleDup (splitTab "a\tb\ta")) ∧
    res6w.1.cols = ["location", "S"] :=
  ⟨C6_amended_header_line_consumed.1 "a\tb\ta" ["1\t2\t3"],
   C6_amended_header_line_consumed.2.1 "a\tb\ta" ["1\t2\t3"] (by decide) (by decide) (by decide),
   C6_amended_header_line_consumed.2.2 df6w "S" res6w (by decide)⟩

end MicroC
